import Mathlib

/-!
# Shallow embedding of libsocks5 (src/sockslib.c)

A SOCKS5 client library: a per-session context, destination setters,
authentication negotiation and the CONNECT request/reply exchange.
I/O collaborators (`sockslib_send`, `sockslib_read`, `connect`,
`getaddrinfo`) are external per the spec; the embedding parametrises
functions over their outcomes and records the frames the code sends and
the byte counts it requests, so that framing claims are statable.

Machine integers: C `int` results are `Int`; bytes are `Nat` (values
0..255, with `% 256` written where the C code truncates). C strings are
`List Char` (non-null; the empty list is the empty string). The
destination union `d_addr` and the fixed credential arrays are byte
lists of length 256 written by prefix overlay, matching the C overlay
semantics of a union / `memcpy` into a fixed array.
-/

set_option maxRecDepth 8000

namespace Sockslib

/-- Modelled from the spec: `sockslib.h` is not under src/; the error
enumeration's order is fixed by the taxonomy in §7 of the spec and by the
string table in `socks_strerror` (src/sockslib.c lines 101-109). -/
def SOCKS_ERR_OK : Int := 0

/-- Modelled from the spec: server-reported code, "SOCKS server failure". -/
def SOCKS_ERR_SERV_FAIL : Int := 1

/-- Modelled from the spec: server-reported code, "Connection refused". -/
def SOCKS_ERR_CONN_REFUSED : Int := 5

/-- Modelled from the spec: "Address type not supported". -/
def SOCKS_ERR_ADDR_NOTSUPP : Int := 8

/-- Modelled from the spec: "Authentication method not supported". -/
def SOCKS_ERR_AUTH_NOTSUPP : Int := 9

/-- Modelled from the spec: "Invalid authentication". -/
def SOCKS_ERR_BAD_AUTH : Int := 10

/-- Modelled from the spec: "Value too long". -/
def SOCKS_ERR_TOO_LONG : Int := 11

/-- Modelled from the spec: "Out of memory". -/
def SOCKS_ERR_NO_MEM : Int := 12

/-- Modelled from the spec: "Invalid argument". -/
def SOCKS_ERR_BAD_ARG : Int := 13

/-- Modelled from the spec: "System error (check errno)", the last
enumerator; `socks_strerror` range-checks against it. -/
def SOCKS_ERR_SYS_ERRNO : Int := 15

/-- Modelled from the spec: SOCKS protocol version byte (SOCKS5). -/
def SOCKS_VERSION : Nat := 5

/-- Modelled from the spec: method "none required" (§4.3). -/
def SOCKS_NO_AUTH : Nat := 0

/-- Modelled from the spec: method "username/password" (§4.3). -/
def SOCKS_AUTH_USERPASS : Nat := 2

/-- Modelled from the spec: the username/password sub-negotiation
version byte (`authver`, §6). -/
def SOCKS_AUTH_VERSION : Nat := 1

/-- Modelled from the spec: CONNECT command byte, `cmd(1)=1` (§6). -/
def SOCKS_CMD_CONNECT : Nat := 1

/-- Modelled from the spec: `atyp` values IPv4=1 (§6). -/
def SOCKS_ATYP_IPV4 : Nat := 1

/-- Modelled from the spec: `atyp` values domain-name=3 (§6). -/
def SOCKS_ATYP_NAME : Nat := 3

/-- Modelled from the spec: `atyp` values IPv6=4 (§6). -/
def SOCKS_ATYP_IPV6 : Nat := 4

/-- A C byte viewed from a `char`: the value truncated to 8 bits. -/
def charByte (c : Char) : Nat := c.toNat % 256

/-- Accumulating decimal value of a leading run of digits (the digit
loop shared by `atoi` and `inet_pton`). -/
def digitsVal : List Char → Nat → Nat
  | [], acc => acc
  | c :: cs, acc =>
      if c.isDigit then digitsVal cs (acc * 10 + (c.toNat - 48)) else acc

/-- C `isspace` characters skipped by `atoi`. -/
def isSpaceC (c : Char) : Bool :=
  c = ' ' ∨ c = '\t' ∨ c = '\n' ∨ c = '\x0b' ∨ c = '\x0c' ∨ c = '\r'

/-- C `atoi`: skip whitespace, optional sign, leading digits. -/
def atoi (s : List Char) : Int :=
  match s.dropWhile isSpaceC with
  | '-' :: rest => -(digitsVal rest 0 : Int)
  | '+' :: rest => (digitsVal rest 0 : Int)
  | rest => (digitsVal rest 0 : Int)

/-- `htons(atoi(port))`: the port value as the 16-bit unsigned quantity
stored in the context (C conversion to `uint16_t` is reduction mod 2^16). -/
def htons_atoi (port : List Char) : Nat := (atoi port % 65536).toNat

/-- The two bytes of the stored 16-bit port in network byte order (what
`memcpy(req_buf + len, &ctx->d_port, 2)` copies after `htons`). -/
def portBytes (p : Nat) : List Nat := [p / 256 % 256, p % 256]

/-- Split a C string at every dot (for `inet_pton` with `AF_INET`). -/
def splitDot : List Char → List (List Char)
  | [] => [[]]
  | c :: cs =>
      if c = '.' then [] :: splitDot cs
      else
        match splitDot cs with
        | g :: gs => (c :: g) :: gs
        | [] => [[c]]

/-- One dotted-quad group: 1-3 digits, no redundant leading zero, value
at most 255 (glibc `inet_pton` rejects anything else). -/
def validOctet (g : List Char) : Option Nat :=
  if g ≠ [] ∧ g.length ≤ 3 ∧ g.all Char.isDigit ∧
      (g.length = 1 ∨ g.headD '0' ≠ '0') then
    let v := digitsVal g 0
    if v ≤ 255 then some v else none
  else none

/-- `inet_pton(AF_INET, s, dest)`: four valid dotted-quad groups yield
the 4-byte binary address; anything else fails, and on failure the
destination bytes are not written. -/
def inet_pton4 (s : List Char) : Option (List Nat) :=
  match (splitDot s).mapM validOctet with
  | some [a, b, c, d] => some [a, b, c, d]
  | _ => none

/-- Write `new` over the front of `store` (a `memcpy` into the
destination union / a fixed-size array). -/
def overlay (store new : List Nat) : List Nat :=
  new ++ store.drop new.length

/-- `struct socks_auth`: negotiated method, authenticated flag,
credential arrays (256 bytes each in the C struct) and their explicit
lengths. -/
structure SocksAuth where
  method : Nat
  authed : Bool
  username : List Nat
  password : List Nat
  user_len : Nat
  pass_len : Nat
deriving DecidableEq, Repr

/-- `struct socks_server`: only the socket descriptor is relevant to the
claims (the resolved address is an external resource). -/
structure SocksServer where
  fd : Int
deriving DecidableEq, Repr

/-- `struct socks_ctx`: destination tag and union backing bytes, name
length, network-order port, last reply, protocol version, auth state,
server binding. -/
structure SocksCtx where
  atyp : Nat
  d_addr : List Nat
  d_name_len : Nat
  d_port : Nat
  reply : Int
  ver : Nat
  auth : SocksAuth
  server : SocksServer
deriving DecidableEq, Repr

/-- `socks_init` (heap allocation success case): zeroed/sentinel
context. The C code zeroes only `d_addr.name[0]`; the remaining union
bytes are unread before being written, so they are modelled as zero. -/
def socks_init : SocksCtx :=
  { atyp := 0
    d_addr := List.replicate 256 0
    d_name_len := 0
    d_port := 0
    reply := -1
    ver := SOCKS_VERSION
    auth :=
      { method := 0, authed := false
        username := List.replicate 256 0, password := List.replicate 256 0
        user_len := 0, pass_len := 0 }
    server := { fd := -1 } }

/-- The immutable string table of `socks_strerror`. -/
def errStrings : List String :=
  ["", "SOCKS server failure", "Connection not allowed",
   "Network unreachable", "Host unreachable",
   "Connection refused", "TTL expired", "Command not supported",
   "Address type not supported", "Authentication method not supported",
   "Invalid authentication", "Value too long",
   "Out of memory", "Invalid argument",
   "Empty Request/Response", "System error (check errno)"]

/-- The sign normalisation `code = (code < 0) ? -code : code` inside
`socks_strerror`. -/
def errIndex (code : Int) : Int := if code < 0 then -code else code

/-- `socks_strerror`: normalise the sign, index the table when in the
enumerated range, otherwise a generic string. -/
def socks_strerror (code : Int) : String :=
  if SOCKS_ERR_OK ≤ errIndex code ∧ errIndex code ≤ SOCKS_ERR_SYS_ERRNO then
    errStrings.getD (errIndex code).toNat "Unknown error"
  else "Unknown error"

/-- `socks_set_auth` (non-null context): reject empty credentials with
BadArgument, over-long ones with BadAuth, otherwise copy both strings
into the fixed arrays and record their lengths. -/
def socks_set_auth (ctx : SocksCtx) (u p : List Char) : Int × SocksCtx :=
  if u = [] ∨ p = [] then (-SOCKS_ERR_BAD_ARG, ctx)
  else
    let ul := u.length
    let pl := p.length
    if ul > 255 ∨ pl > 255 then (-SOCKS_ERR_BAD_AUTH, ctx)
    else
      (SOCKS_ERR_OK,
       { ctx with auth :=
          { ctx.auth with
              username := overlay ctx.auth.username (u.map charByte)
              password := overlay ctx.auth.password (p.map charByte)
              user_len := ul, pass_len := pl } })

/-- `socks_setaddr` for `AF_INET`: `inet_pton` failure yields
AddressNotSupported and leaves the destination bytes unwritten. -/
def socks_setaddr4 (store : List Nat) (ip : List Char) : Int × List Nat :=
  match inet_pton4 ip with
  | none => (-SOCKS_ERR_ADDR_NOTSUPP, store)
  | some b => (SOCKS_ERR_OK, overlay store b)

/-- `socks_set_addr4` (non-null context): after the emptiness checks the
code sets `atyp` and `d_port` first and only then validates the text via
`socks_setaddr`. -/
def socks_set_addr4 (ctx : SocksCtx) (ip port : List Char) : Int × SocksCtx :=
  if ip = [] ∨ port = [] then (-SOCKS_ERR_BAD_ARG, ctx)
  else
    let ctx1 := { ctx with atyp := SOCKS_ATYP_IPV4, d_port := htons_atoi port }
    let r := socks_setaddr4 ctx1.d_addr ip
    (r.1, { ctx1 with d_addr := r.2 })

/-- `socks_set_addrname` (non-null context): after the emptiness checks
the code stores `d_name_len = strlen(name)` first and only then rejects
lengths above 255; on success it sets the tag, port and name bytes. -/
def socks_set_addrname (ctx : SocksCtx) (name port : List Char) :
    Int × SocksCtx :=
  if name = [] ∨ port = [] then (-SOCKS_ERR_BAD_ARG, ctx)
  else
    let ctx1 := { ctx with d_name_len := name.length }
    if ctx1.d_name_len > 255 then (-SOCKS_ERR_TOO_LONG, ctx1)
    else
      (SOCKS_ERR_OK,
       { ctx1 with
           atyp := SOCKS_ATYP_NAME
           d_port := htons_atoi port
           d_addr := overlay ctx1.d_addr (name.map charByte) })

/-- `socks_get_auth_method`: send the fixed 4-byte method request, read
the 2-byte reply, return its second byte (or propagate an I/O error).
`sendRes`/`readRes` are the external primitives' results; `methodReply`
the bytes the read delivered. -/
def socks_get_auth_method (sendRes readRes : Int) (methodReply : List Nat) :
    Int :=
  if sendRes < 0 then sendRes
  else if readRes < 0 then readRes
  else (methodReply.getD 1 0 : Int)

/-- The fixed 4-byte method-request frame
`[version, nmethods=2, no-auth, username-password]`. -/
def method_request : List Nat :=
  [SOCKS_VERSION, 2, SOCKS_NO_AUTH, SOCKS_AUTH_USERPASS]

/-- The username/password sub-negotiation frame the code assembles in
`auth_buf`: `[authver][ulen][username][plen][password]`. -/
def auth_frame (a : SocksAuth) : List Nat :=
  [SOCKS_AUTH_VERSION, a.user_len % 256] ++ a.username.take a.user_len ++
    [a.pass_len % 256] ++ a.password.take a.pass_len

/-- External outcomes of the username/password sub-negotiation: whether
`malloc` succeeds, the send and read results, and the 2-byte status
reply delivered by the read. -/
structure SubnegOutcome where
  mallocOk : Bool
  sendRes : Int
  readRes : Int
  statusReply : List Nat
deriving DecidableEq, Repr

/-- Observable outcome of `socks_connect_server`: return value, updated
context, and the frames successfully handed to `sockslib_send`. -/
structure NegResult where
  ret : Int
  ctx : SocksCtx
  sent : List (List Nat)
deriving DecidableEq, Repr

/-- `socks_connect_server` (non-null context): TCP connect, method
negotiation, then the method dispatch — none-required authenticates
immediately, username/password runs the sub-negotiation and checks the
status byte, anything else is AuthMethodNotSupported. `connectRet` is
the TCP `connect` result, `gmSend`/`gmRead`/`methodReply` the method
negotiation's I/O outcomes, `sub` the sub-negotiation's. -/
def socks_connect_server (ctx : SocksCtx) (connectRet : Int)
    (gmSend gmRead : Int) (methodReply : List Nat) (sub : SubnegOutcome) :
    NegResult :=
  if connectRet < 0 then ⟨connectRet, ctx, []⟩
  else
    let m := socks_get_auth_method gmSend gmRead methodReply
    let mSent := if gmSend < 0 then [] else [method_request]
    if m < 0 then ⟨m, ctx, mSent⟩
    else
      let ctx1 := { ctx with auth := { ctx.auth with method := m.toNat } }
      if ctx1.auth.method = SOCKS_NO_AUTH then
        ⟨SOCKS_ERR_OK,
         { ctx1 with auth := { ctx1.auth with authed := true } },
         [method_request]⟩
      else if ctx1.auth.method = SOCKS_AUTH_USERPASS then
        if ¬ sub.mallocOk then ⟨-SOCKS_ERR_NO_MEM, ctx1, [method_request]⟩
        else if sub.sendRes < 0 then ⟨sub.sendRes, ctx1, [method_request]⟩
        else if sub.readRes < 0 then
          ⟨sub.readRes, ctx1, [method_request, auth_frame ctx1.auth]⟩
        else if sub.statusReply.getD 1 0 ≠ 0 then
          ⟨-SOCKS_ERR_BAD_AUTH, ctx1, [method_request, auth_frame ctx1.auth]⟩
        else
          ⟨SOCKS_ERR_OK,
           { ctx1 with auth := { ctx1.auth with authed := true } },
           [method_request, auth_frame ctx1.auth]⟩
      else ⟨-SOCKS_ERR_AUTH_NOTSUPP, ctx1, [method_request]⟩

/-- The CONNECT request frame `socks_connect` assembles in `req_buf`,
`none` when the `switch` on `atyp` falls to the default branch. -/
def connect_frame (ctx : SocksCtx) : Option (List Nat) :=
  let hdr := [SOCKS_VERSION, SOCKS_CMD_CONNECT, 0, ctx.atyp % 256]
  if ctx.atyp = SOCKS_ATYP_IPV4 then
    some (hdr ++ ctx.d_addr.take 4 ++ portBytes ctx.d_port)
  else if ctx.atyp = SOCKS_ATYP_NAME then
    some (hdr ++ [ctx.d_name_len % 256] ++ ctx.d_addr.take ctx.d_name_len ++
      portBytes ctx.d_port)
  else if ctx.atyp = SOCKS_ATYP_IPV6 then
    some (hdr ++ ctx.d_addr.take 16 ++ portBytes ctx.d_port)
  else none

/-- Observable outcome of `socks_connect`: return value, updated
context, the frames successfully handed to `sockslib_send`, and the
byte count passed to `sockslib_read` (`none` when no read was issued). -/
structure ConnResult where
  ret : Int
  ctx : SocksCtx
  sent : List (List Nat)
  readReq : Option Nat
deriving DecidableEq, Repr

/-- `socks_connect` (non-null context): encode the destination per
`atyp` (default branch: AddressNotSupported before any I/O), send the
frame, then read the reply — passing the REQUEST frame's length `len`
as the byte count to `sockslib_read` — and inspect the reply's second
byte. `stream` is the byte sequence the server makes available. -/
def socks_connect (ctx : SocksCtx) (sendRes readRes : Int)
    (stream : List Nat) : ConnResult :=
  match connect_frame ctx with
  | none => ⟨-SOCKS_ERR_ADDR_NOTSUPP, ctx, [], none⟩
  | some frame =>
    if sendRes < 0 then ⟨sendRes, ctx, [], none⟩
    else if readRes < 0 then ⟨readRes, ctx, [frame], some frame.length⟩
    else
      let rep := stream.getD 1 0
      ⟨if rep = 0 then ctx.server.fd else -(rep : Int),
       { ctx with reply := (rep : Int) }, [frame], some frame.length⟩

/-- Modelled from the spec: the length of a well-formed CONNECT reply
frame as §6 and §9 define it — a fixed 4-byte header, an address field
whose length is governed by the reply's own `atyp` (byte 3), and a
2-byte port. -/
def reply_frame_len (stream : List Nat) : Option Nat :=
  if stream.getD 3 0 = SOCKS_ATYP_IPV4 then some (4 + 4 + 2)
  else if stream.getD 3 0 = SOCKS_ATYP_NAME then
    some (4 + 1 + stream.getD 4 0 + 2)
  else if stream.getD 3 0 = SOCKS_ATYP_IPV6 then some (4 + 16 + 2)
  else none

/-! ## Concrete inputs used by the claim theorems and witnesses -/

/-- A malformed IPv4 text: first octet exceeds 255. -/
def ipBad : List Char := "300.1.1.1".toList

/-- A well-formed IPv4 text. -/
def ipGood : List Char := "1.2.3.4".toList

/-- The loopback IPv4 text. -/
def ipLoop : List Char := "127.0.0.1".toList

/-- Port text "80". -/
def port80 : List Char := "80".toList

/-- Port text "99". -/
def port99 : List Char := "99".toList

/-- A short domain name. -/
def nameShort : List Char := "ab".toList

/-- A six-byte domain name. -/
def nameSix : List Char := "abcdef".toList

/-- A 256-byte name, one byte beyond the wire format's length byte. -/
def nameLong : List Char := List.replicate 256 'a'

/-- A well-formed 10-byte CONNECT reply with `atyp` = IPv4 and
status 0: `[ver, rep, rsv, atyp, 4-byte addr, 2-byte port]`. -/
def replyV4 : List Nat := [5, 0, 0, 1, 127, 0, 0, 1, 0, 80]

/-! ## Claim theorems -/

/-- Claim C1 (code bug evidence): `socks_connect` passes the REQUEST
frame's length to `sockslib_read` as the reply byte count. For a
six-byte domain-name destination the request frame is 13 bytes, so the
code requests 13 reply bytes, while the reply it is shown — a
well-formed IPv4 reply — is 10 bytes long per the reply's own `atyp`.
The read count is governed by the request, contradicting the claim. -/
theorem C1_reply_read_count_follows_request_length :
    (socks_connect (socks_set_addrname socks_init nameSix port80).2 0 0
        replyV4).readReq = some 13 ∧
    reply_frame_len replyV4 = some 10 ∧
    (socks_connect (socks_set_addrname socks_init nameSix port80).2 0 0
        replyV4).readReq ≠ reply_frame_len replyV4 := by decide

/-- Claim C2 (code bug evidence): with a domain-name destination
(port 99) previously set, `socks_set_addr4` on the malformed text
"300.1.1.1" with port "80" returns AddressNotSupported as claimed, but
has already overwritten `atyp` (3 → 1) and `d_port` (99 → 80); only the
stored address bytes survive. The destination is not left unchanged. -/
theorem C2_set_ipv4_error_mutates_destination :
    ((socks_set_addr4 (socks_set_addrname socks_init nameSix port99).2
        ipBad port80).1 = -SOCKS_ERR_ADDR_NOTSUPP) ∧
    (socks_set_addrname socks_init nameSix port99).2.atyp = SOCKS_ATYP_NAME ∧
    (socks_set_addr4 (socks_set_addrname socks_init nameSix port99).2
        ipBad port80).2.atyp = SOCKS_ATYP_IPV4 ∧
    (socks_set_addrname socks_init nameSix port99).2.d_port = 99 ∧
    (socks_set_addr4 (socks_set_addrname socks_init nameSix port99).2
        ipBad port80).2.d_port = 80 ∧
    (socks_set_addr4 (socks_set_addrname socks_init nameSix port99).2
        ipBad port80).2.d_addr
      = (socks_set_addrname socks_init nameSix port99).2.d_addr := by decide

/-- Claim C3 (code bug evidence): with a two-byte domain-name
destination previously set, `socks_set_addrname` on a 256-byte name
returns ValueTooLong as claimed, but has already overwritten
`d_name_len` (2 → 256); `atyp`, the port and the stored name bytes
survive. The destination state is not left exactly as it was. -/
theorem C3_set_name_error_mutates_length :
    ((socks_set_addrname (socks_set_addrname socks_init nameShort port80).2
        nameLong port80).1 = -SOCKS_ERR_TOO_LONG) ∧
    (socks_set_addrname socks_init nameShort port80).2.d_name_len = 2 ∧
    (socks_set_addrname (socks_set_addrname socks_init nameShort port80).2
        nameLong port80).2.d_name_len = 256 ∧
    (socks_set_addrname (socks_set_addrname socks_init nameShort port80).2
        nameLong port80).2.atyp
      = (socks_set_addrname socks_init nameShort port80).2.atyp ∧
    (socks_set_addrname (socks_set_addrname socks_init nameShort port80).2
        nameLong port80).2.d_port
      = (socks_set_addrname socks_init nameShort port80).2.d_port ∧
    (socks_set_addrname (socks_set_addrname socks_init nameShort port80).2
        nameLong port80).2.d_addr
      = (socks_set_addrname socks_init nameShort port80).2.d_addr := by decide

/-- Sign normalisation is symmetric. -/
theorem errIndex_neg (code : Int) : errIndex (-code) = errIndex code := by
  unfold errIndex
  split_ifs <;> omega

/-- Claim C7: `socks_strerror` is sign-symmetric for every integer
code, returns the table entry for magnitudes in the enumerated range
(here the ConnectionRefused slot yields "Connection refused" for both
signs), and the generic string outside it. -/
theorem C7_strerror_sign_symmetric (code : Int) :
    socks_strerror code = socks_strerror (-code) ∧
    socks_strerror SOCKS_ERR_CONN_REFUSED = "Connection refused" ∧
    socks_strerror (-SOCKS_ERR_CONN_REFUSED) = "Connection refused" ∧
    ((code < -15 ∨ 15 < code) → socks_strerror code = "Unknown error") ∧
    (0 ≤ code → code ≤ 15 →
      socks_strerror code = errStrings.getD code.toNat "Unknown error") := by
  refine ⟨?_, by decide, by decide, ?_, ?_⟩
  · unfold socks_strerror
    rw [errIndex_neg]
  · intro h
    unfold socks_strerror errIndex SOCKS_ERR_OK SOCKS_ERR_SYS_ERRNO
    split_ifs <;> first | rfl | omega
  · intro h0 h15
    unfold socks_strerror errIndex SOCKS_ERR_OK SOCKS_ERR_SYS_ERRNO
    split_ifs <;> first | rfl | omega

/-- Witness for C7 at codes 20 (out of range) and 3 (in range). -/
theorem C7_strerror_witness :
    socks_strerror 20 = socks_strerror (-20) ∧
    socks_strerror 20 = "Unknown error" ∧
    socks_strerror 3 = errStrings.getD (3 : Int).toNat "Unknown error" :=
  ⟨(C7_strerror_sign_symmetric 20).1,
   (C7_strerror_sign_symmetric 20).2.2.2.1 (by omega),
   (C7_strerror_sign_symmetric 3).2.2.2.2 (by omega) (by omega)⟩

/-- Claim C10: over-long credentials (either string beyond 255 bytes,
both non-empty) make `socks_set_auth` return BadAuth — the length check
precedes every store — and leave the whole context, in particular the
stored username, password and their length fields, unchanged. -/
theorem C10_set_auth_overlong_bad_auth (ctx : SocksCtx) (u p : List Char)
    (hu : u ≠ []) (hp : p ≠ []) (hl : 255 < u.length ∨ 255 < p.length) :
    socks_set_auth ctx u p = (-SOCKS_ERR_BAD_AUTH, ctx) := by
  simp only [socks_set_auth]
  rw [if_neg (by simp [hu, hp]), if_pos (by omega)]

/-- Witness for C10: a 256-byte username and a 1-byte password. -/
theorem C10_set_auth_witness :
    socks_set_auth socks_init nameLong ['b'] =
      (-SOCKS_ERR_BAD_AUTH, socks_init) :=
  C10_set_auth_overlong_bad_auth socks_init nameLong ['b']
    (by decide) (by decide) (by decide)

/-- Claim C9: whenever the stored domain-name length is at most 255 (as
the setters enforce), the CONNECT request frame `socks_connect` builds
is at most 4 + 1 + 255 + 2 = 262 bytes for every address variant, well
within the 512-byte `req_buf`. -/
theorem C9_connect_frame_bounded (ctx : SocksCtx) (frame : List Nat)
    (hn : ctx.d_name_len ≤ 255) (hf : connect_frame ctx = some frame) :
    frame.length ≤ 262 ∧ 262 ≤ 512 := by
  refine ⟨?_, by omega⟩
  simp only [connect_frame] at hf
  split_ifs at hf
  · injection hf with h
    subst h
    simp only [List.length_append, List.length_take, List.length_cons,
      List.length_nil, portBytes]
    omega
  · injection hf with h
    subst h
    simp only [List.length_append, List.length_take, List.length_cons,
      List.length_nil, portBytes]
    omega
  · injection hf with h
    subst h
    simp only [List.length_append, List.length_take, List.length_cons,
      List.length_nil, portBytes]
    omega

/-- Witness for C9 on a six-byte domain-name destination. -/
theorem C9_connect_frame_witness :
    ([5, 1, 0, 3, 6, 97, 98, 99, 100, 101, 102, 0, 80] : List Nat).length
        ≤ 262 ∧ 262 ≤ 512 :=
  C9_connect_frame_bounded (socks_set_addrname socks_init nameSix port80).2
    [5, 1, 0, 3, 6, 97, 98, 99, 100, 101, 102, 0, 80]
    (by decide) (by decide)

/-- The prefix written by `overlay` is read back intact. -/
theorem overlay_take (store new : List Nat) :
    (overlay store new).take new.length = new :=
  List.take_left new (store.drop new.length)

/-- Claim C8: after a successful `socks_set_addr4` followed by a
successful `socks_set_addrname` on the same context, the CONNECT frame
is exactly the domain-name encoding — header with `atyp` = 3, the name
length byte, the name bytes just stored, and the port — with no byte of
the stale IPv4 payload: the variant is selected by `atyp` alone. -/
theorem C8_domain_name_overrides_ipv4 (ctx : SocksCtx)
    (ip pt1 name pt2 : List Char)
    (_h4 : (socks_set_addr4 ctx ip pt1).1 = SOCKS_ERR_OK)
    (hn : (socks_set_addrname (socks_set_addr4 ctx ip pt1).2 name pt2).1
        = SOCKS_ERR_OK) :
    (socks_set_addrname (socks_set_addr4 ctx ip pt1).2 name pt2).2.atyp
        = SOCKS_ATYP_NAME ∧
    connect_frame (socks_set_addrname (socks_set_addr4 ctx ip pt1).2 name
        pt2).2
      = some ([SOCKS_VERSION, SOCKS_CMD_CONNECT, 0, SOCKS_ATYP_NAME,
          name.length] ++ name.map charByte ++ portBytes (htons_atoi pt2)) := by
  simp only [socks_set_addrname] at hn ⊢
  by_cases he : name = [] ∨ pt2 = []
  · rw [if_pos he] at hn
    simp [SOCKS_ERR_BAD_ARG, SOCKS_ERR_OK] at hn
  · rw [if_neg he] at hn ⊢
    by_cases hl : name.length > 255
    · rw [if_pos (by simpa using hl)] at hn
      simp [SOCKS_ERR_TOO_LONG, SOCKS_ERR_OK] at hn
    · rw [if_neg (by simpa using hl)] at hn ⊢
      refine ⟨rfl, ?_⟩
      simp only [connect_frame, SOCKS_ATYP_NAME, SOCKS_ATYP_IPV4,
        SOCKS_ATYP_IPV6, SOCKS_VERSION, SOCKS_CMD_CONNECT]
      norm_num
      rw [show name.length = (name.map charByte).length from
            (List.length_map name charByte).symm,
        overlay_take]
      simp only [List.length_map]
      exact ⟨by omega, trivial⟩

/-- Witness for C8: IPv4 1.2.3.4:80 set first, then the domain name
"abcdef":99; the CONNECT frame carries only the name bytes. -/
theorem C8_domain_name_witness :
    (socks_set_addrname (socks_set_addr4 socks_init ipGood port80).2 nameSix
        port99).2.atyp = SOCKS_ATYP_NAME ∧
    connect_frame (socks_set_addrname
        (socks_set_addr4 socks_init ipGood port80).2 nameSix port99).2
      = some ([SOCKS_VERSION, SOCKS_CMD_CONNECT, 0, SOCKS_ATYP_NAME,
          nameSix.length] ++ nameSix.map charByte ++
          portBytes (htons_atoi port99)) :=
  C8_domain_name_overrides_ipv4 socks_init ipGood port80 nameSix port99
    (by decide) (by decide)

/-- Claim C5: `socks_connect` fails with AddressNotSupported before any
I/O when `atyp` is unset; otherwise, once the send and the read
succeed, it records the reply's status byte in `last_reply`, returns
the stored server socket (non-negative whenever that descriptor is) on
status 0, and returns the negated status on any nonzero status. -/
theorem C5_connect_postcondition (ctx : SocksCtx) (sendRes readRes : Int)
    (stream : List Nat) :
    (ctx.atyp = 0 → socks_connect ctx sendRes readRes stream
        = ⟨-SOCKS_ERR_ADDR_NOTSUPP, ctx, [], none⟩) ∧
    (0 ≤ sendRes → 0 ≤ readRes → connect_frame ctx ≠ none →
      ((socks_connect ctx sendRes readRes stream).ctx.reply
          = (stream.getD 1 0 : Int) ∧
       (stream.getD 1 0 = 0 →
          (socks_connect ctx sendRes readRes stream).ret = ctx.server.fd) ∧
       (0 ≤ ctx.server.fd → stream.getD 1 0 = 0 →
          0 ≤ (socks_connect ctx sendRes readRes stream).ret) ∧
       (stream.getD 1 0 ≠ 0 →
          (socks_connect ctx sendRes readRes stream).ret
            = -(stream.getD 1 0 : Int)))) := by
  constructor
  · intro h0
    have hf : connect_frame ctx = none := by
      simp [connect_frame, h0, SOCKS_ATYP_IPV4, SOCKS_ATYP_NAME,
        SOCKS_ATYP_IPV6]
    simp [socks_connect, hf]
  · intro hs hr hf
    cases hcf : connect_frame ctx with
    | none => exact absurd hcf hf
    | some frame =>
      simp only [socks_connect, hcf]
      rw [if_neg (by omega), if_neg (by omega)]
      refine ⟨rfl, fun h0 => ?_, fun hfd h0 => ?_, fun h0 => ?_⟩
      · show (if stream.getD 1 0 = 0 then ctx.server.fd
            else -(stream.getD 1 0 : Int)) = ctx.server.fd
        rw [if_pos h0]
      · show 0 ≤ (if stream.getD 1 0 = 0 then ctx.server.fd
            else -(stream.getD 1 0 : Int))
        rw [if_pos h0]
        exact hfd
      · show (if stream.getD 1 0 = 0 then ctx.server.fd
            else -(stream.getD 1 0 : Int)) = -(stream.getD 1 0 : Int)
        rw [if_neg h0]

/-- Witness for C5: the unset-`atyp` case on a fresh context, and a
successful CONNECT for 127.0.0.1:80 on a context whose server socket is
descriptor 7, against a status-0 reply. -/
theorem C5_connect_witness :
    socks_connect socks_init 0 0 []
        = ⟨-SOCKS_ERR_ADDR_NOTSUPP, socks_init, [], none⟩ ∧
    (socks_connect
        { (socks_set_addr4 socks_init ipLoop port80).2 with server := ⟨7⟩ }
        0 0 replyV4).ret
      = ({ (socks_set_addr4 socks_init ipLoop port80).2 with
            server := ⟨7⟩ } : SocksCtx).server.fd :=
  ⟨(C5_connect_postcondition socks_init 0 0 []).1 (by decide),
   ((C5_connect_postcondition
        { (socks_set_addr4 socks_init ipLoop port80).2 with server := ⟨7⟩ }
        0 0 replyV4).2 (by omega) (by omega) (by decide)).2.1 (by decide)⟩

set_option maxHeartbeats 2000000 in
/-- Claim C4: `socks_connect_server`'s dispatch on the server-selected
method — none-required authenticates immediately with no further
exchange; username/password with a nonzero status byte fails with
BadAuth; any other method fails with AuthMethodNotSupported; and every
failing path (negative return) leaves `authenticated` false. -/
theorem C4_auth_method_dispatch (ctx : SocksCtx)
    (connectRet gmSend gmRead : Int) (methodReply : List Nat)
    (sub : SubnegOutcome) (h0 : ctx.auth.authed = false) :
    ((0 ≤ connectRet → 0 ≤ gmSend → 0 ≤ gmRead →
      ((methodReply.getD 1 0 = SOCKS_NO_AUTH →
        (socks_connect_server ctx connectRet gmSend gmRead methodReply
            sub).ret = SOCKS_ERR_OK ∧
        (socks_connect_server ctx connectRet gmSend gmRead methodReply
            sub).ctx.auth.authed = true ∧
        (socks_connect_server ctx connectRet gmSend gmRead methodReply
            sub).sent = [method_request]) ∧
       (methodReply.getD 1 0 = SOCKS_AUTH_USERPASS → sub.mallocOk = true →
        0 ≤ sub.sendRes → 0 ≤ sub.readRes → sub.statusReply.getD 1 0 ≠ 0 →
        (socks_connect_server ctx connectRet gmSend gmRead methodReply
            sub).ret = -SOCKS_ERR_BAD_AUTH ∧
        (socks_connect_server ctx connectRet gmSend gmRead methodReply
            sub).ctx.auth.authed = false) ∧
       (methodReply.getD 1 0 ≠ SOCKS_NO_AUTH →
        methodReply.getD 1 0 ≠ SOCKS_AUTH_USERPASS →
        (socks_connect_server ctx connectRet gmSend gmRead methodReply
            sub).ret = -SOCKS_ERR_AUTH_NOTSUPP ∧
        (socks_connect_server ctx connectRet gmSend gmRead methodReply
            sub).ctx.auth.authed = false))) ∧
     ((socks_connect_server ctx connectRet gmSend gmRead methodReply
          sub).ret < 0 →
      (socks_connect_server ctx connectRet gmSend gmRead methodReply
          sub).ctx.auth.authed = false)) := by
  constructor
  · intro hc hs hr
    refine ⟨fun hNo => ?_, fun hUp hmal hss hrr hst => ?_,
      fun hn0 hn2 => ?_⟩
    · simp only [SOCKS_NO_AUTH] at hNo
      simp only [socks_connect_server, socks_get_auth_method,
        SOCKS_NO_AUTH, SOCKS_AUTH_USERPASS]
      split_ifs <;> first | (exfalso; omega) | simp_all
    · simp only [SOCKS_AUTH_USERPASS] at hUp
      simp only [socks_connect_server, socks_get_auth_method,
        SOCKS_NO_AUTH, SOCKS_AUTH_USERPASS]
      split_ifs <;> first | (exfalso; omega) | simp_all
    · simp only [SOCKS_NO_AUTH] at hn0
      simp only [SOCKS_AUTH_USERPASS] at hn2
      simp only [socks_connect_server, socks_get_auth_method,
        SOCKS_NO_AUTH, SOCKS_AUTH_USERPASS]
      split_ifs <;> first | (exfalso; omega) | simp_all
  · revert h0
    simp only [socks_connect_server, socks_get_auth_method,
      SOCKS_NO_AUTH, SOCKS_AUTH_USERPASS]
    split_ifs <;> intro h0 hneg <;>
      simp_all [SOCKS_ERR_OK, SOCKS_ERR_NO_MEM, SOCKS_ERR_BAD_AUTH,
        SOCKS_ERR_AUTH_NOTSUPP]

/-- Witness for C4: a server selecting none-required (method byte 0)
authenticates immediately; one selecting username/password (method
byte 2) and replying status 1 fails with BadAuth and leaves the flag
false. -/
theorem C4_auth_dispatch_witness :
    ((socks_connect_server socks_init 0 0 0 [5, 0]
        ⟨true, 0, 0, [1, 0]⟩).ret = SOCKS_ERR_OK ∧
     (socks_connect_server socks_init 0 0 0 [5, 0]
        ⟨true, 0, 0, [1, 0]⟩).ctx.auth.authed = true ∧
     (socks_connect_server socks_init 0 0 0 [5, 0]
        ⟨true, 0, 0, [1, 0]⟩).sent = [method_request]) ∧
    ((socks_connect_server socks_init 0 0 0 [5, 2]
        ⟨true, 0, 0, [1, 1]⟩).ret = -SOCKS_ERR_BAD_AUTH ∧
     (socks_connect_server socks_init 0 0 0 [5, 2]
        ⟨true, 0, 0, [1, 1]⟩).ctx.auth.authed = false) :=
  ⟨((C4_auth_method_dispatch socks_init 0 0 0 [5, 0] ⟨true, 0, 0, [1, 0]⟩
      (by decide)).1 (by omega) (by omega) (by omega)).1 (by decide),
   ((C4_auth_method_dispatch socks_init 0 0 0 [5, 2] ⟨true, 0, 0, [1, 1]⟩
      (by decide)).1 (by omega) (by omega) (by omega)).2.1 (by decide)
      (by decide) (by decide) (by decide) (by decide)⟩

set_option maxHeartbeats 1000000 in
/-- Claim C6: in the username/password sub-negotiation,
`socks_connect_server` sends, after the method request, exactly the
frame `[auth_version][ulen][username][plen][password]` of length
1 + 1 + ulen + 1 + plen, with the length bytes at positions 1 and
2 + ulen. -/
theorem C6_userpass_frame_layout (ctx : SocksCtx)
    (connectRet gmSend gmRead : Int) (methodReply : List Nat)
    (sub : SubnegOutcome)
    (hc : 0 ≤ connectRet) (hs : 0 ≤ gmSend) (hr : 0 ≤ gmRead)
    (hUp : methodReply.getD 1 0 = SOCKS_AUTH_USERPASS)
    (hmal : sub.mallocOk = true) (hss : 0 ≤ sub.sendRes)
    (hu : ctx.auth.user_len ≤ 255) (hp : ctx.auth.pass_len ≤ 255)
    (hul : ctx.auth.user_len ≤ ctx.auth.username.length)
    (hpl : ctx.auth.pass_len ≤ ctx.auth.password.length) :
    (socks_connect_server ctx connectRet gmSend gmRead methodReply sub).sent
        = [method_request, auth_frame ctx.auth] ∧
    (auth_frame ctx.auth).length
        = 1 + 1 + ctx.auth.user_len + 1 + ctx.auth.pass_len ∧
    (auth_frame ctx.auth).getD 1 0 = ctx.auth.user_len ∧
    (auth_frame ctx.auth).getD (2 + ctx.auth.user_len) 0
        = ctx.auth.pass_len := by
  refine ⟨?_, ?_, ?_, ?_⟩
  · simp only [SOCKS_AUTH_USERPASS] at hUp
    simp only [socks_connect_server, socks_get_auth_method,
      SOCKS_NO_AUTH, SOCKS_AUTH_USERPASS]
    split_ifs <;> first | (exfalso; omega) | simp_all [auth_frame]
  · simp only [auth_frame, List.length_append, List.length_cons,
      List.length_nil, List.length_take]
    omega
  · rw [auth_frame, List.getD_append _ _ _ _ (by simp)]
    simp [List.getD]
    omega
  · have hlen2 : ([SOCKS_AUTH_VERSION, ctx.auth.user_len % 256] ++
        ctx.auth.username.take ctx.auth.user_len).length
        = 2 + ctx.auth.user_len := by
      simp only [List.length_append, List.length_cons, List.length_nil,
        List.length_take]
      omega
    rw [auth_frame,
      List.getD_append _ _ _ _ (by
        simp only [List.length_append, List.length_cons, List.length_nil,
          List.length_take]
        omega),
      List.getD_append_right _ _ _ _ (by
        simp only [List.length_append, List.length_cons, List.length_nil,
          List.length_take]
        omega)]
    rw [hlen2, Nat.sub_self]
    simp [List.getD]
    omega

/-- A context holding credentials "admin" (5 bytes) and "password"
(8 bytes). -/
def ctxCred : SocksCtx :=
  (socks_set_auth socks_init "admin".toList "password".toList).2

/-- Witness for C6: with credentials of lengths 5 and 8 the frame is
16 bytes, byte 1 is 5 and byte 7 is 8. -/
theorem C6_userpass_frame_witness :
    ((socks_connect_server ctxCred 0 0 0 [5, 2]
        ⟨true, 0, 0, [1, 0]⟩).sent
        = [method_request, auth_frame ctxCred.auth] ∧
     (auth_frame ctxCred.auth).length
        = 1 + 1 + ctxCred.auth.user_len + 1 + ctxCred.auth.pass_len ∧
     (auth_frame ctxCred.auth).getD 1 0 = ctxCred.auth.user_len ∧
     (auth_frame ctxCred.auth).getD (2 + ctxCred.auth.user_len) 0
        = ctxCred.auth.pass_len) ∧
    (auth_frame ctxCred.auth).length = 16 ∧
    (auth_frame ctxCred.auth).getD 1 0 = 5 ∧
    (auth_frame ctxCred.auth).getD 7 0 = 8 :=
  ⟨C6_userpass_frame_layout ctxCred 0 0 0 [5, 2] ⟨true, 0, 0, [1, 0]⟩
      (by omega) (by omega) (by omega) (by decide) (by decide) (by decide)
      (by decide) (by decide) (by decide) (by decide),
   by decide, by decide, by decide⟩

end Sockslib
